import Mathlib

/-!
Verification development for the ScholarDock contact-extraction and
batch-outreach frontend. Each definition is a shallow embedding of a
function or component state of the repository (the React/TypeScript
frontend under `src/`); definitions whose implementations live in the
backend (absent from `src/`) are modelled from the specification and say
so in their doc comments.
-/

namespace ScholarDock

/-! ## Data model (from frontend/src/services/api.ts) -/

/-- `AuthorLink` from api.ts: an author's name and scholar URL. -/
structure AuthorLink where
  name : String
  scholar_url : String
deriving DecidableEq, Repr

/-- `AuthorEmail` from api.ts: author name, optional email, and the
source string (the frontend compares it against "pdf_fallback" and
displays "not_extracted"). -/
structure AuthorEmail where
  name : String
  email : Option String
  email_source : String
deriving DecidableEq, Repr

/-- The proxy-status payload of `searchAPI.getProxyStatus` in api.ts. -/
structure ProxyStatusInfo where
  proxy_enabled : Bool
  proxy_url : Option String
  status : String
  message : Option String
deriving DecidableEq, Repr

/-- JavaScript `String.prototype.trim()`: remove whitespace from both
ends of the string. Modelled over the character list so the kernel can
evaluate it on concrete strings. -/
def jsTrim (s : String) : String :=
  String.mk (((s.data.dropWhile Char.isWhitespace).reverse.dropWhile
    Char.isWhitespace).reverse)

/-- `SearchRequest` from api.ts: the search form data. -/
structure SearchRequest where
  keyword : String
  num_results : Nat
  start_year : Option Nat
  end_year : Option Nat
  sort_by : String
  filter_by_title : Bool
  exclude_duplicates : Bool
deriving DecidableEq, Repr

/-! ## C9: SearchPage.handleSubmit (src/unnamed/part_000, lines 33-40) -/

/-- The effect of submitting the search form: either a toast error is
shown (and no search issued), or `searchMutation.mutate` is invoked with
a request body. -/
inductive SubmitAction where
  | showError (msg : String)
  | mutate (req : SearchRequest)
deriving DecidableEq, Repr

/-- `handleSubmit` from SearchPage: if `formData.keyword.trim()` is
empty (falsy in JS), show the toast error and return before mutating;
otherwise call `searchMutation.mutate(formData)`. -/
def handleSubmit (formData : SearchRequest) : SubmitAction :=
  if (jsTrim formData.keyword).isEmpty then
    SubmitAction.showError "Please enter a search keyword"
  else
    SubmitAction.mutate formData

/-! ## C1: BatchEmailSender.handleBatchSend and the start button
(src/frontend/src/components/BatchEmailSender.tsx) -/

/-- The form state of `BatchEmailSender` relevant to sending. -/
structure BatchFormState where
  subject : String
  includeAuthorEmails : Bool
  includePdfEmails : Bool
  isLoading : Bool
deriving DecidableEq, Repr

/-- The JSON body `handleBatchSend` POSTs to `/api/email/batch-send`. -/
structure BatchSendRequest where
  search_id : Nat
  subject : String
  include_author_emails : Bool
  include_pdf_emails : Bool
deriving DecidableEq, Repr

/-- The effect of `handleBatchSend`: an alert (returning before the
fetch) or the POST to the batch-send endpoint. -/
inductive BatchSendAction where
  | alertMissingSubject
  | alertNoEmailType
  | post (body : BatchSendRequest)
deriving DecidableEq, Repr

/-- `handleBatchSend` from BatchEmailSender.tsx lines 79-121: alert and
return if the trimmed subject is empty; alert and return if both include
flags are false; otherwise POST the request body. -/
def handleBatchSend (searchId : Nat) (s : BatchFormState) : BatchSendAction :=
  if (jsTrim s.subject).isEmpty then
    BatchSendAction.alertMissingSubject
  else if !s.includeAuthorEmails && !s.includePdfEmails then
    BatchSendAction.alertNoEmailType
  else
    BatchSendAction.post
      { search_id := searchId
        subject := s.subject
        include_author_emails := s.includeAuthorEmails
        include_pdf_emails := s.includePdfEmails }

/-- The `disabled` attribute of the start button in BatchEmailSender.tsx
line 286: `isLoading || !subject.trim() || (!includeAuthorEmails &&
!includePdfEmails)`. -/
def startButtonDisabled (s : BatchFormState) : Bool :=
  s.isLoading || (jsTrim s.subject).isEmpty ||
    (!s.includeAuthorEmails && !s.includePdfEmails)

/-- Modelled from the spec: the backend batch-send endpoint (absent from
`src/`) creates one running BatchJob per accepted POST; the set of jobs
created by a frontend action is therefore empty unless the action is a
POST. -/
def batchJobsCreated (a : BatchSendAction) : List BatchSendRequest :=
  match a with
  | BatchSendAction.post body => [body]
  | _ => []

/-! ## C10: success-rate display guard (TopProgressBar lines 187-196 and
BatchEmailSender lines 264-267, identical expressions) -/

/-- The completion `result` payload of a batch progress message. -/
structure BatchResult where
  total : Nat
  sent : Nat
  failed : Nat
deriving DecidableEq, Repr

/-- The success-rate element rendered in the completion panels of both
TopProgressBar and BatchEmailSender: shown only when `result.sent > 0`,
and then equal to `Math.round(sent / total * 100)`. `none` means the
element is not rendered. -/
def displayedSuccessRate (r : BatchResult) : Option ℤ :=
  if r.sent > 0 then
    some (round ((r.sent : ℚ) / (r.total : ℚ) * 100))
  else
    none

/-! ## C2 and C3: per-article extraction gating in ResultsPage
(src/unnamed/part_001) -/

/-- `proxyStatus?.status !== 'connected'` from ResultsPage: true when
the proxy-status query has no data yet or reports any status other than
"connected" (including "disabled" and error states). -/
def proxyNotConnected : Option ProxyStatusInfo → Bool
  | none => true
  | some p => !(p.status == "connected")

/-- `onMutate` of `extractEmailsMutation` (ResultsPage lines 197-203):
`new Set(prev).add(articleId)`. -/
def extractOnMutate (extracting : Finset ℕ) (articleId : ℕ) : Finset ℕ :=
  insert articleId extracting

/-- `onSettled` of `extractEmailsMutation` (ResultsPage lines 215-221):
copy the set and `delete(articleId)`. -/
def extractOnSettled (extracting : Finset ℕ) (articleId : ℕ) : Finset ℕ :=
  extracting.erase articleId

/-- The `disabled` attribute of the per-article extract button
(ResultsPage lines 439-443): `extractingEmails.has(article.id) ||
extractEmailsMutation.isLoading || proxyStatus?.status !== 'connected'`. -/
def extractButtonDisabled (extracting : Finset ℕ) (mutationLoading : Bool)
    (proxy : Option ProxyStatusInfo) (articleId : ℕ) : Bool :=
  decide (articleId ∈ extracting) || mutationLoading || proxyNotConnected proxy

/-- The `disabled` attribute of the extract-all button (ResultsPage line
321): `extractAllEmailsMutation.isLoading || proxyStatus?.status !==
'connected'`. -/
def extractAllButtonDisabled (mutationLoading : Bool)
    (proxy : Option ProxyStatusInfo) : Bool :=
  mutationLoading || proxyNotConnected proxy

/-- The `title` tooltip of both extraction buttons (ResultsPage lines
323 and 445): the proxy-required message when not connected, else
empty. -/
def extractButtonTooltip (proxy : Option ProxyStatusInfo) : String :=
  if proxyNotConnected proxy then "需要代理连接才能提取邮箱" else ""

/-- The proxy banner label (ResultsPage lines 296-297): connected,
disabled, or connection-failed. -/
def proxyBannerLabel (p : ProxyStatusInfo) : String :=
  if p.status == "connected" then "已连接"
  else if p.status == "disabled" then "未启用"
  else "连接失败"

/-- The rendering of an author entry whose extraction looked but found
nothing (ResultsPage lines 500-502): the text "None" with the source in
parentheses. -/
def notExtractedDisplay : String := "None (not_extracted)"

/-! ## C4: batch event stream (dispatcher modelled from the spec) and
the frontend observers (BatchEmailSender lines 49-62, TopProgressBar
lines 49-65) -/

/-- A batch progress message as received over the WebSocket (interface
`BatchProgress` in BatchEmailSender.tsx / `ProgressData` in
TopProgressBar.tsx): either a progress update or the completion. -/
inductive BatchEvent where
  | progress (title description : String) (pct : ℕ) (counters : BatchResult)
  | completion (status : String) (result : BatchResult)
deriving DecidableEq, Repr

/-- `data.type === 'completion'` in both observers. -/
def isCompletion : BatchEvent → Bool
  | BatchEvent.completion _ _ => true
  | _ => false

/-- Number of `true` outcomes in a list of per-recipient send
outcomes. -/
def sentCount (outcomes : List Bool) : ℕ :=
  (outcomes.filter (fun b => b)).length

/-- Number of `false` outcomes in a list of per-recipient send
outcomes. -/
def failedCount (outcomes : List Bool) : ℕ :=
  (outcomes.filter (fun b => !b)).length

/-- Modelled from the spec: the backend Batch Dispatcher (absent from
`src/`) emits, for one BatchJob whose per-recipient send outcomes are
`outcomes`, a progress event after every recipient with updated
counters and percent-complete, and after the last recipient exactly one
completion event with the final totals. -/
def dispatchEvents (outcomes : List Bool) : List BatchEvent :=
  (List.range outcomes.length).map (fun i =>
    BatchEvent.progress "批量发送中" "正在发送邮件"
      ((i + 1) * 100 / outcomes.length)
      (BatchResult.mk outcomes.length (sentCount (outcomes.take (i + 1)))
        (failedCount (outcomes.take (i + 1)))))
  ++ [BatchEvent.completion "completed"
      (BatchResult.mk outcomes.length (sentCount outcomes) (failedCount outcomes))]

/-- The observer state of BatchEmailSender: the last received message,
the loading flag, and the completion flag. -/
structure ObserverState where
  progress : Option BatchEvent
  isLoading : Bool
  isComplete : Bool
deriving DecidableEq, Repr

/-- The `onmessage` handler of BatchEmailSender.tsx lines 49-62:
`setProgress(data)`, and when `data.type === 'completion'` also
`setIsLoading(false)` and `setIsComplete(true)`. -/
def onMessage (st : ObserverState) (e : BatchEvent) : ObserverState :=
  { progress := some e
    isLoading := if isCompletion e then false else st.isLoading
    isComplete := if isCompletion e then true else st.isComplete }

/-! ## C5: PDFExtractionProgress simulated progress
(src/frontend/src/components/PDFExtractionProgress.tsx lines 68-98) -/

/-- Step status of a PDF-extraction step
(PDFExtractionProgress.tsx). -/
inductive StepStatus where
  | pending
  | inProgress
  | completed
  | failed
deriving DecidableEq, Repr

/-- One entry of the `steps` state of PDFExtractionProgress. -/
structure PDFStep where
  id : String
  title : String
  status : StepStatus
deriving DecidableEq, Repr

/-- The initial `steps` state of PDFExtractionProgress (lines 19-62):
seven pending steps. -/
def initialSteps : List PDFStep :=
  [ PDFStep.mk "start" "开始PDF邮箱提取" StepStatus.pending,
    PDFStep.mk "get_pdf_links" "获取PDF链接" StepStatus.pending,
    PDFStep.mk "download_pdf" "下载PDF文件" StepStatus.pending,
    PDFStep.mk "extract_text" "提取PDF文本" StepStatus.pending,
    PDFStep.mk "find_emails" "查找邮箱地址" StepStatus.pending,
    PDFStep.mk "match_authors" "匹配作者邮箱" StepStatus.pending,
    PDFStep.mk "complete" "完成提取" StepStatus.pending ]

/-- The step-state update of `simulateProgress` at loop iteration `i`
(lines 74-80): steps before `i` completed, step `i` in progress, later
steps unchanged. The update is a function of the timer tick index only;
it consumes no event of the actual run. -/
def stepsAtTick (steps : List PDFStep) (i : ℕ) : List PDFStep :=
  (steps.zip (List.range steps.length)).map (fun si =>
    if si.2 < i then { si.1 with status := StepStatus.completed }
    else if si.2 = i then { si.1 with status := StepStatus.inProgress }
    else si.1)

/-- The `extractionResult` state of PDFExtractionProgress. -/
structure SimulationResult where
  success : Bool
  message : String
deriving DecidableEq, Repr

/-- The outcome of the actual extraction run the component is opened
for. -/
inductive ExtractionOutcome where
  | succeeded (numEmails : ℕ)
  | failed
deriving DecidableEq, Repr

/-- Whether the actual extraction run succeeded. -/
def outcomeSuccess : ExtractionOutcome → Bool
  | ExtractionOutcome.succeeded _ => true
  | ExtractionOutcome.failed => false

/-- The final displayed result of `simulateProgress` (lines 88-94) for
a run with the given actual outcome: the simulation references no data
of the run, so the displayed result is this constant — every step
marked completed and `{success: true, message: '成功提取2个作者邮箱'}`
regardless of the outcome. -/
def simulateProgressResult (_o : ExtractionOutcome) : SimulationResult :=
  SimulationResult.mk true "成功提取2个作者邮箱"

/-! ## C6: PDF-fallback email dedup display (ResultsPage lines 512-520)
and the batch recipient set (dispatcher modelled from the spec) -/

/-- JavaScript `Array.from(new Set(l))`: keep the first occurrence of
each element, in insertion order. -/
def jsSetDedup {α : Type} [DecidableEq α] (l : List α) : List α :=
  l.foldl (fun acc x => if x ∈ acc then acc else acc ++ [x]) []

/-- `article.author_emails?.filter(email => email.email_source ===
'pdf_fallback')` from ResultsPage line 514. -/
def pdfFallbackEmails (emails : List AuthorEmail) : List AuthorEmail :=
  emails.filter (fun e => e.email_source == "pdf_fallback")

/-- `uniquePdfFallbackEmails` from ResultsPage lines 516-518: dedupe the
fallback entries by email address (first occurrence wins), then map each
distinct address back to its first entry, dropping failed lookups. -/
def uniquePdfFallbackEmails (emails : List AuthorEmail) : List AuthorEmail :=
  (jsSetDedup ((pdfFallbackEmails emails).map (fun e => e.email))).filterMap
    (fun em => (pdfFallbackEmails emails).find? (fun e => e.email == em))

/-- Whether an AuthorEmail entry passes the two include flags of a batch
request: fallback entries are kept when include_pdf_emails is set, all
other entries when include_author_emails is set (the frontend counts an
entry as an author email when `email_source !== 'pdf_fallback'`). -/
def includedByFlags (incHome incPdf : Bool) (e : AuthorEmail) : Bool :=
  if e.email_source == "pdf_fallback" then incPdf else incHome

/-- Modelled from the spec: the backend Batch Dispatcher's recipient set
(absent from `src/`) — the union of per-article AuthorEmail entries
filtered by the two include flags, with null-email entries excluded and
duplicate addresses within the batch collapsed to one send. -/
def batchRecipients (articlesEmails : List (List AuthorEmail))
    (incHome incPdf : Bool) : List String :=
  jsSetDedup (articlesEmails.flatMap (fun aes =>
    (aes.filter (includedByFlags incHome incPdf)).filterMap (fun e => e.email)))

/-! ## C7: extraction worker recording (modelled from the spec;
AuthorEmail from api.ts lines 25-30, rendering at ResultsPage lines
470-505) -/

/-- Modelled from the spec: the backend Extraction Worker (absent from
`src/`) records one AuthorEmail entry per author of the article — the
homepage email when found, else the document-fallback email, else the
terminal `{email: null, source: not_extracted}` entry; no author is
omitted. -/
def recordOneAuthor (homepageEmail fallbackEmail : String → Option String)
    (n : String) : AuthorEmail :=
  match homepageEmail n with
  | some e => AuthorEmail.mk n (some e) "homepage"
  | none =>
    match fallbackEmail n with
    | some e => AuthorEmail.mk n (some e) "pdf_fallback"
    | none => AuthorEmail.mk n none "not_extracted"

/-- Modelled from the spec: the full recorded AuthorEmail set of an
article — one entry per author, in author order. -/
def recordAuthorEmails (authors : List String)
    (homepageEmail : String → Option String)
    (fallbackEmail : String → Option String) : List AuthorEmail :=
  authors.map (recordOneAuthor homepageEmail fallbackEmail)

/-! ## C8: template rendering inputs of the preview and send paths
(EmailSender.tsx lines 68-130, api.ts lines 115-148) -/

/-- The input of the template renderer: the five fields both frontend
paths pass to the backend. -/
structure RenderInput where
  author_name : String
  paper_title : String
  paper_venue : Option String
  paper_year : Option ℕ
  paper_citations : Option ℕ
deriving DecidableEq, Repr

/-- Modelled from the spec: the backend Template Renderer (a Jinja2
template, absent from `src/`) — a pure function of the render input;
missing optional fields omit their sentence rather than rendering empty
placeholders. -/
def renderEmail (i : RenderInput) : String :=
  "Dear " ++ i.author_name ++ ", I read your paper " ++ i.paper_title ++
  (match i.paper_venue with
   | some v => ", published in " ++ v
   | none => "") ++
  (match i.paper_year with
   | some y => " in " ++ toString y
   | none => "") ++
  (match i.paper_citations with
   | some c => ", cited " ++ toString c ++ " times"
   | none => "") ++ "."

/-- The props of EmailSender relevant to rendering. -/
structure EmailSenderProps where
  authorEmail : String
  authorName : String
  paperTitle : String
  paperVenue : Option String
  paperYear : Option ℕ
  paperCitations : Option ℕ
deriving DecidableEq, Repr

/-- The body `generatePreview` passes to `searchAPI.previewEmail`
(EmailSender.tsx lines 76-82). -/
def previewRequestBody (p : EmailSenderProps) : RenderInput :=
  { author_name := p.authorName
    paper_title := p.paperTitle
    paper_venue := p.paperVenue
    paper_year := p.paperYear
    paper_citations := p.paperCitations }

/-- The body `sendEmail` passes to `searchAPI.sendEmail`
(EmailSender.tsx lines 108-116): the recipient, the subject, and the
same five template fields. -/
structure SendEmailBody where
  to_email : String
  subject : String
  author_name : String
  paper_title : String
  paper_venue : Option String
  paper_year : Option ℕ
  paper_citations : Option ℕ
deriving DecidableEq, Repr

/-- Construction of the send body from the props (EmailSender.tsx lines
108-116). -/
def sendRequestBody (p : EmailSenderProps) (subject : String) : SendEmailBody :=
  { to_email := p.authorEmail
    subject := subject
    author_name := p.authorName
    paper_title := p.paperTitle
    paper_venue := p.paperVenue
    paper_year := p.paperYear
    paper_citations := p.paperCitations }

/-- The render input the backend send path extracts from a send body
(the same five template fields). -/
def sendRenderInput (b : SendEmailBody) : RenderInput :=
  { author_name := b.author_name
    paper_title := b.paper_title
    paper_venue := b.paper_venue
    paper_year := b.paper_year
    paper_citations := b.paper_citations }

end ScholarDock

namespace ScholarDock

/-! ## Theorems -/

/-- Folding the observer handler over a non-empty event list leaves the
last received event as the displayed progress. -/
lemma foldl_onMessage_progress (l : List BatchEvent) :
    ∀ st : ObserverState, l ≠ [] →
      (l.foldl onMessage st).progress = l.getLast? := by
  induction l with
  | nil =>
    intro st h
    exact absurd rfl h
  | cons a t ih =>
    intro st _
    cases t with
    | nil => simp [onMessage]
    | cons b t2 =>
      have hrec := ih (onMessage st a) (by simp)
      simpa [List.getLast?_cons_cons] using hrec

/-- The observer's completion flag becomes true only from its initial
value or from an actual completion event in the received stream. -/
lemma foldl_onMessage_isComplete (l : List BatchEvent) :
    ∀ st : ObserverState, (l.foldl onMessage st).isComplete = true →
      st.isComplete = true ∨ ∃ e ∈ l, isCompletion e = true := by
  induction l with
  | nil =>
    intro st h
    exact Or.inl h
  | cons a t ih =>
    intro st h
    rcases ih (onMessage st a) h with h1 | ⟨e, he, hc⟩
    · by_cases hca : isCompletion a = true
      · exact Or.inr ⟨a, by simp, hca⟩
      · left
        simpa [onMessage, hca] using h1
    · exact Or.inr ⟨e, by simp [he], hc⟩

/-- The fold underlying `jsSetDedup` preserves the no-duplicates
invariant of its accumulator. -/
lemma jsSetDedup_foldl_nodup {α : Type} [DecidableEq α] (l : List α) :
    ∀ acc : List α, acc.Nodup →
      (l.foldl (fun acc x => if x ∈ acc then acc else acc ++ [x]) acc).Nodup := by
  induction l with
  | nil =>
    intro acc h
    exact h
  | cons a t ih =>
    intro acc h
    by_cases ha : a ∈ acc
    · simpa [ha] using ih acc h
    · have hconcat : (acc ++ [a]).Nodup := by
        simp [List.nodup_append, h, ha]
      simpa [ha] using ih (acc ++ [a]) hconcat

/-- `jsSetDedup` returns a list without duplicates. -/
lemma jsSetDedup_nodup {α : Type} [DecidableEq α] (l : List α) :
    (jsSetDedup l).Nodup :=
  jsSetDedup_foldl_nodup l [] List.nodup_nil

/-- Membership in the fold underlying `jsSetDedup`: an element is in
the result exactly when it is in the accumulator or in the input. -/
lemma jsSetDedup_foldl_mem {α : Type} [DecidableEq α] (l : List α) (x : α) :
    ∀ acc : List α,
      (x ∈ l.foldl (fun acc y => if y ∈ acc then acc else acc ++ [y]) acc ↔
        x ∈ acc ∨ x ∈ l) := by
  induction l with
  | nil =>
    intro acc
    simp
  | cons a t ih =>
    intro acc
    by_cases ha : a ∈ acc
    · rw [List.foldl_cons, if_pos ha, ih acc]
      constructor
      · rintro (hx | hx)
        · exact Or.inl hx
        · exact Or.inr (List.mem_cons_of_mem a hx)
      · rintro (hx | hx)
        · exact Or.inl hx
        · rcases List.mem_cons.mp hx with rfl | hx2
          · exact Or.inl ha
          · exact Or.inr hx2
    · rw [List.foldl_cons, if_neg ha, ih (acc ++ [a])]
      constructor
      · rintro (hx | hx)
        · rcases List.mem_append.mp hx with hx2 | hx2
          · exact Or.inl hx2
          · exact Or.inr (List.mem_cons.mpr (Or.inl (List.mem_singleton.mp hx2)))
        · exact Or.inr (List.mem_cons_of_mem a hx)
      · rintro (hx | hx)
        · exact Or.inl (List.mem_append.mpr (Or.inl hx))
        · rcases List.mem_cons.mp hx with rfl | hx2
          · exact Or.inl (List.mem_append.mpr (Or.inr (List.mem_singleton.mpr rfl)))
          · exact Or.inr hx2

/-- Membership in `jsSetDedup` is membership in the input. -/
lemma mem_jsSetDedup {α : Type} [DecidableEq α] (l : List α) (x : α) :
    x ∈ jsSetDedup l ↔ x ∈ l := by
  rw [jsSetDedup, jsSetDedup_foldl_mem l x []]
  simp

/-- Every email address in the mapped-back fallback display comes from
the deduplicated address list. -/
lemma mem_map_email_filterMap_find (pf : List AuthorEmail)
    (t : List (Option String)) (x : Option String)
    (hx : x ∈ (t.filterMap (fun em => pf.find? (fun e => e.email == em))).map
      (fun e => e.email)) : x ∈ t := by
  rcases List.mem_map.mp hx with ⟨b, hb, rfl⟩
  rcases List.mem_filterMap.mp hb with ⟨em, hem, hfind⟩
  have hbeq := List.find?_some hfind
  have hbe : b.email = em := by simpa using hbeq
  rwa [hbe]

/-- Mapping each address of a no-duplicates list back to its first
fallback entry yields pairwise-distinct displayed addresses. -/
lemma nodup_map_email_filterMap_find (pf : List AuthorEmail) :
    ∀ d : List (Option String), d.Nodup →
      ((d.filterMap (fun em => pf.find? (fun e => e.email == em))).map
        (fun e => e.email)).Nodup := by
  intro d
  induction d with
  | nil =>
    intro _
    simp
  | cons em t ih =>
    intro hd
    have hem : em ∉ t := (List.nodup_cons.mp hd).1
    have ht : t.Nodup := (List.nodup_cons.mp hd).2
    rw [List.filterMap_cons]
    cases hfind : pf.find? (fun e => e.email == em) with
    | none => exact ih ht
    | some b =>
      have hbeq := List.find?_some hfind
      have hbe : b.email = em := by simpa using hbeq
      rw [List.map_cons, List.nodup_cons]
      refine ⟨?_, ih ht⟩
      intro hbmem
      exact hem (by
        have := mem_map_email_filterMap_find pf t b.email hbmem
        rwa [hbe] at this)

/-- C4: within one BatchJob the event stream contains exactly one
completion event, it is the last event, and an observer folding the
stream ends marked complete with the spinner stopped — no progress
event ever follows the completion. -/
theorem batch_completion_last_exactly_once (outcomes : List Bool) :
    (dispatchEvents outcomes).countP isCompletion = 1 ∧
    (dispatchEvents outcomes).getLast? =
      some (BatchEvent.completion "completed"
        (BatchResult.mk outcomes.length (sentCount outcomes)
          (failedCount outcomes))) ∧
    (∀ e ∈ (dispatchEvents outcomes).dropLast, isCompletion e = false) ∧
    ((dispatchEvents outcomes).foldl onMessage
        (ObserverState.mk none true false)).isComplete = true ∧
    ((dispatchEvents outcomes).foldl onMessage
        (ObserverState.mk none true false)).isLoading = false := by
  have hprog : ∀ e ∈ (List.range outcomes.length).map (fun i =>
      BatchEvent.progress "批量发送中" "正在发送邮件"
        ((i + 1) * 100 / outcomes.length)
        (BatchResult.mk outcomes.length (sentCount (outcomes.take (i + 1)))
          (failedCount (outcomes.take (i + 1))))),
      isCompletion e = false := by
    intro e he
    rcases List.mem_map.mp he with ⟨i, _, rfl⟩
    rfl
  refine ⟨?_, ?_, ?_, ?_, ?_⟩
  · unfold dispatchEvents
    rw [List.countP_append]
    have h0 : ((List.range outcomes.length).map (fun i =>
        BatchEvent.progress "批量发送中" "正在发送邮件"
          ((i + 1) * 100 / outcomes.length)
          (BatchResult.mk outcomes.length (sentCount (outcomes.take (i + 1)))
            (failedCount (outcomes.take (i + 1)))))).countP isCompletion = 0 := by
      rw [List.countP_eq_zero]
      intro e he
      simp [hprog e he]
    rw [h0]
    rfl
  · unfold dispatchEvents
    simp [List.getLast?_concat]
  · unfold dispatchEvents
    rw [List.dropLast_concat]
    exact hprog
  · unfold dispatchEvents
    rw [List.foldl_append]
    simp [onMessage, isCompletion]
  · unfold dispatchEvents
    rw [List.foldl_append]
    simp [onMessage, isCompletion]

/-- C9: submitting the search form with a keyword that is empty or all
whitespace shows an error and never invokes the search mutation; with a
non-blank keyword it invokes the mutation with exactly the form data. -/
theorem handleSubmit_blank_keyword_no_search (formData : SearchRequest)
    (hblank : (jsTrim formData.keyword).isEmpty = true) :
    handleSubmit formData = SubmitAction.showError "Please enter a search keyword" ∧
    (∀ req, handleSubmit formData ≠ SubmitAction.mutate req) ∧
    (∀ fd : SearchRequest, (jsTrim fd.keyword).isEmpty = false →
      handleSubmit fd = SubmitAction.mutate fd) := by
  refine ⟨?_, ?_, ?_⟩
  · simp [handleSubmit, hblank]
  · intro req
    simp [handleSubmit, hblank]
  · intro fd hfd
    simp [handleSubmit, hfd]

/-- Witness for C9 at concrete inputs: the keyword `"  "` is blank and
is rejected; the keyword `"llm"` is non-blank. -/
theorem handleSubmit_blank_keyword_no_search_witness :
    (jsTrim (SearchRequest.mk "  " 50 none none "citations" false false).keyword).isEmpty = true ∧
    handleSubmit (SearchRequest.mk "  " 50 none none "citations" false false) =
      SubmitAction.showError "Please enter a search keyword" := by
  refine ⟨by decide, ?_⟩
  exact (handleSubmit_blank_keyword_no_search
    (SearchRequest.mk "  " 50 none none "citations" false false) (by decide)).1

/-- C1: when both include flags are false, `handleBatchSend` returns
with an alert and never issues the POST to the batch-send endpoint, the
start button is disabled, and no BatchJob is created for the action. -/
theorem batchSend_rejected_when_no_flags (searchId : Nat) (s : BatchFormState)
    (hA : s.includeAuthorEmails = false) (hP : s.includePdfEmails = false) :
    (∀ body, handleBatchSend searchId s ≠ BatchSendAction.post body) ∧
    startButtonDisabled s = true ∧
    batchJobsCreated (handleBatchSend searchId s) = [] := by
  have hpost : ∀ body, handleBatchSend searchId s ≠ BatchSendAction.post body := by
    intro body
    unfold handleBatchSend
    by_cases h : (jsTrim s.subject).isEmpty
    · simp [h]
    · simp [h, hA, hP]
  refine ⟨hpost, ?_, ?_⟩
  · simp [startButtonDisabled, hA, hP]
  · cases hcase : handleBatchSend searchId s with
    | alertMissingSubject => simp [batchJobsCreated]
    | alertNoEmailType => simp [batchJobsCreated]
    | post body => exact absurd hcase (hpost body)

/-- Witness for C1 at a concrete state: both flags false, non-blank
subject. -/
theorem batchSend_rejected_when_no_flags_witness :
    (BatchFormState.mk "Hello" false false false).includeAuthorEmails = false ∧
    startButtonDisabled (BatchFormState.mk "Hello" false false false) = true := by
  refine ⟨rfl, ?_⟩
  exact (batchSend_rejected_when_no_flags 7 (BatchFormState.mk "Hello" false false false)
    rfl rfl).2.1

/-- C10: the success-rate expression is evaluated only under the guard
`sent > 0`; with the invariant `sent ≤ total` this forces `total ≥ 1`,
so `sent / total * 100` never divides by zero. -/
theorem successRate_no_div_by_zero (r : BatchResult) (hle : r.sent ≤ r.total)
    (rate : ℤ) (hshown : displayedSuccessRate r = some rate) :
    1 ≤ r.total ∧ (r.total : ℚ) ≠ 0 ∧
    rate = round ((r.sent : ℚ) / (r.total : ℚ) * 100) := by
  unfold displayedSuccessRate at hshown
  by_cases hpos : r.sent > 0
  · have htot : 1 ≤ r.total := le_trans hpos hle
    refine ⟨htot, ?_, ?_⟩
    · exact_mod_cast Nat.one_le_iff_ne_zero.mp htot
    · simp [hpos] at hshown
      exact hshown.symm
  · simp [hpos] at hshown

/-- C5 counterexample: the PDFExtractionProgress display does not
reflect the actual events of the run — for the concrete run that
actually failed, the simulated final result still reports success, so
the displayed success/failure does not equal the run's outcome. -/
theorem pdf_progress_unconditional_success_counterexample :
    (simulateProgressResult ExtractionOutcome.failed).success = true ∧
    outcomeSuccess ExtractionOutcome.failed = false ∧
    ¬ (∀ o : ExtractionOutcome,
        (simulateProgressResult o).success = outcomeSuccess o) := by
  refine ⟨rfl, rfl, ?_⟩
  intro h
  exact absurd (h ExtractionOutcome.failed) (by decide)

/-- C5 amended: the batch-progress views display genuine events — the
displayed state is exactly the last received event and the completion
flag is set only by an actual completion event of that run — while the
PDF-extraction progress component (disabled in the results page) is a
fixed-delay simulation whose displayed result is independent of the run
and unconditionally reports success. -/
theorem batch_progress_event_driven_pdf_progress_simulated
    (events : List BatchEvent) (h : events ≠ []) :
    (events.foldl onMessage (ObserverState.mk none true false)).progress =
      events.getLast? ∧
    ((events.foldl onMessage (ObserverState.mk none true false)).isComplete = true →
      ∃ e ∈ events, isCompletion e = true) ∧
    (∀ o o2 : ExtractionOutcome,
      simulateProgressResult o = simulateProgressResult o2) ∧
    (∀ o : ExtractionOutcome, (simulateProgressResult o).success = true) := by
  refine ⟨foldl_onMessage_progress events (ObserverState.mk none true false) h,
    ?_, fun o o2 => rfl, fun o => rfl⟩
  intro hc
  rcases foldl_onMessage_isComplete events (ObserverState.mk none true false) hc with
    h1 | h2
  · exact absurd h1 (by decide)
  · exact h2

/-- Witness for the C5 amended theorem at a concrete one-event
stream. -/
theorem batch_progress_event_driven_witness :
    ([BatchEvent.completion "completed" (BatchResult.mk 1 1 0)] ≠
      ([] : List BatchEvent)) ∧
    ([BatchEvent.completion "completed" (BatchResult.mk 1 1 0)].foldl onMessage
      (ObserverState.mk none true false)).progress =
      some (BatchEvent.completion "completed" (BatchResult.mk 1 1 0)) := by
  refine ⟨by decide, ?_⟩
  have h := batch_progress_event_driven_pdf_progress_simulated
    [BatchEvent.completion "completed" (BatchResult.mk 1 1 0)] (by decide)
  simpa using h.1

/-- C2: an article id is added to the extracting set when the mutation
starts and removed when it settles, and whenever the id is in the set
the per-article extract button is disabled, so no second extraction
request for the same article can be issued while one is in flight. -/
theorem extract_in_flight_button_disabled (extracting : Finset ℕ)
    (articleId : ℕ) (mutationLoading : Bool) (proxy : Option ProxyStatusInfo)
    (hin : articleId ∈ extracting) :
    articleId ∈ extractOnMutate extracting articleId ∧
    articleId ∉ extractOnSettled extracting articleId ∧
    extractButtonDisabled extracting mutationLoading proxy articleId = true := by
  refine ⟨Finset.mem_insert_self articleId extracting,
    Finset.not_mem_erase articleId extracting, ?_⟩
  simp [extractButtonDisabled, hin]

/-- Witness for C2: article 3 is in the concrete set and its button is
disabled. -/
theorem extract_in_flight_button_disabled_witness :
    (3 : ℕ) ∈ ({3, 5} : Finset ℕ) ∧
    extractButtonDisabled {3, 5} false
      (some (ProxyStatusInfo.mk true none "connected" none)) 3 = true := by
  refine ⟨by decide, ?_⟩
  exact (extract_in_flight_button_disabled {3, 5} 3 false
    (some (ProxyStatusInfo.mk true none "connected" none)) (by decide)).2.2

/-- C3: for every proxy status other than "connected" (including
"disabled", error states, and a missing status payload), both the
per-article extract button and the extract-all button are disabled in
every surrounding state, the proxy-required tooltip is shown, and the
banner label surfaces the condition distinctly from an extraction that
found nothing. -/
theorem proxy_not_connected_disables_extraction
    (proxy : Option ProxyStatusInfo)
    (hnc : proxyNotConnected proxy = true) :
    (∀ (extracting : Finset ℕ) (loading : Bool) (articleId : ℕ),
      extractButtonDisabled extracting loading proxy articleId = true) ∧
    (∀ loading : Bool, extractAllButtonDisabled loading proxy = true) ∧
    extractButtonTooltip proxy = "需要代理连接才能提取邮箱" ∧
    (∀ p : ProxyStatusInfo, proxy = some p →
      proxyBannerLabel p ≠ "已连接" ∧ proxyBannerLabel p ≠ notExtractedDisplay) := by
  refine ⟨?_, ?_, ?_, ?_⟩
  · intro extracting loading articleId
    simp [extractButtonDisabled, hnc]
  · intro loading
    simp [extractAllButtonDisabled, hnc]
  · simp [extractButtonTooltip, hnc]
  · intro p hp
    subst hp
    have hstatus : (p.status == "connected") = false := by
      simpa [proxyNotConnected] using hnc
    unfold proxyBannerLabel
    rw [hstatus]
    by_cases hd : (p.status == "disabled") = true
    · rw [if_neg (by simp), hd]
      refine ⟨by decide, by decide⟩
    · rw [if_neg (by simp)]
      rw [if_neg (by simpa using hd)]
      refine ⟨by decide, by decide⟩

/-- Witness for C3: a concrete error proxy status disables both buttons
and shows the distinct labels. -/
theorem proxy_not_connected_disables_extraction_witness :
    proxyNotConnected (some (ProxyStatusInfo.mk true none "error" none)) = true ∧
    extractAllButtonDisabled false
      (some (ProxyStatusInfo.mk true none "error" none)) = true ∧
    proxyBannerLabel (ProxyStatusInfo.mk true none "error" none) ≠ "已连接" := by
  have h := proxy_not_connected_disables_extraction
    (some (ProxyStatusInfo.mk true none "error" none)) (by decide)
  exact ⟨by decide, h.2.1 false,
    (h.2.2.2 (ProxyStatusInfo.mk true none "error" none) rfl).1⟩

/-- C6: the batch recipient set collapses duplicate addresses to one
send (no address is counted twice), excludes null-email entries (every
recipient originates from an entry with a concrete address passing the
include flags), and the displayed PDF-fallback list shows each distinct
address at most once. -/
theorem batch_recipients_no_duplicate_sends
    (articlesEmails : List (List AuthorEmail)) (incHome incPdf : Bool)
    (emails : List AuthorEmail) (addr : String)
    (hmem : addr ∈ batchRecipients articlesEmails incHome incPdf) :
    (batchRecipients articlesEmails incHome incPdf).Nodup ∧
    (batchRecipients articlesEmails incHome incPdf).count addr = 1 ∧
    (∃ aes ∈ articlesEmails, ∃ e ∈ aes,
      e.email = some addr ∧ includedByFlags incHome incPdf e = true) ∧
    ((uniquePdfFallbackEmails emails).map (fun e => e.email)).Nodup := by
  have hnd : (batchRecipients articlesEmails incHome incPdf).Nodup :=
    jsSetDedup_nodup _
  refine ⟨hnd, List.count_eq_one_of_mem hnd hmem, ?_, ?_⟩
  · have hsrc : addr ∈ articlesEmails.flatMap (fun aes =>
        (aes.filter (includedByFlags incHome incPdf)).filterMap
          (fun e => e.email)) := by
      rw [batchRecipients, mem_jsSetDedup] at hmem
      exact hmem
    rcases List.mem_flatMap.mp hsrc with ⟨aes, haes, hin⟩
    rcases List.mem_filterMap.mp hin with ⟨e, hef, hemail⟩
    rcases List.mem_filter.mp hef with ⟨hea, hflag⟩
    exact ⟨aes, haes, e, hea, hemail, hflag⟩
  · exact nodup_map_email_filterMap_find (pdfFallbackEmails emails) _
      (jsSetDedup_nodup _)

/-- Witness for C6 at a concrete batch: two articles contributing the
same address, which is collapsed to a single send. -/
theorem batch_recipients_no_duplicate_sends_witness :
    ("a@x.com" ∈ batchRecipients
      [[AuthorEmail.mk "A" (some "a@x.com") "homepage"],
       [AuthorEmail.mk "B" (some "a@x.com") "pdf_fallback",
        AuthorEmail.mk "C" none "not_extracted"]] true true) ∧
    (batchRecipients
      [[AuthorEmail.mk "A" (some "a@x.com") "homepage"],
       [AuthorEmail.mk "B" (some "a@x.com") "pdf_fallback",
        AuthorEmail.mk "C" none "not_extracted"]] true true).count "a@x.com" = 1 := by
  refine ⟨by decide, ?_⟩
  exact (batch_recipients_no_duplicate_sends
    [[AuthorEmail.mk "A" (some "a@x.com") "homepage"],
     [AuthorEmail.mk "B" (some "a@x.com") "pdf_fallback",
      AuthorEmail.mk "C" none "not_extracted"]] true true
    [] "a@x.com" (by decide)).2.1

/-- C7: after extraction, every author of the article has an
AuthorEmail entry (no author is omitted, the recorded set has one entry
per author), and an author with no email from either source is recorded
as `{email: null, source: not_extracted}`. -/
theorem extraction_records_every_author (authors : List String)
    (homepageEmail fallbackEmail : String → Option String) (a : String)
    (ha : a ∈ authors) :
    (recordAuthorEmails authors homepageEmail fallbackEmail).length =
      authors.length ∧
    (∃ entry ∈ recordAuthorEmails authors homepageEmail fallbackEmail,
      entry.name = a) ∧
    (homepageEmail a = none → fallbackEmail a = none →
      AuthorEmail.mk a none "not_extracted" ∈
        recordAuthorEmails authors homepageEmail fallbackEmail) := by
  refine ⟨List.length_map _ _, ?_, ?_⟩
  · refine ⟨recordOneAuthor homepageEmail fallbackEmail a,
      List.mem_map_of_mem _ ha, ?_⟩
    unfold recordOneAuthor
    cases homepageEmail a with
    | some e => rfl
    | none =>
      cases fallbackEmail a with
      | some e => rfl
      | none => rfl
  · intro hh hf
    have hval : recordOneAuthor homepageEmail fallbackEmail a =
        AuthorEmail.mk a none "not_extracted" := by
      unfold recordOneAuthor
      rw [hh, hf]
    rw [recordAuthorEmails, ← hval]
    exact List.mem_map_of_mem _ ha

/-- Witness for C7: a single author with no email from either source is
recorded as the not_extracted entry. -/
theorem extraction_records_every_author_witness :
    ("Ada" ∈ ["Ada"]) ∧
    AuthorEmail.mk "Ada" none "not_extracted" ∈
      recordAuthorEmails ["Ada"] (fun _ => none) (fun _ => none) := by
  refine ⟨by decide, ?_⟩
  exact (extraction_records_every_author ["Ada"] (fun _ => none)
    (fun _ => none) "Ada" (by decide)).2.2 rfl rfl

/-- C8: the preview path and the send path hand the renderer identical
inputs, so the pure renderer produces byte-identical output for the
same props; the renderer is a deterministic function of the five
fields. -/
theorem preview_send_render_identical (p : EmailSenderProps)
    (subject : String) :
    previewRequestBody p = sendRenderInput (sendRequestBody p subject) ∧
    renderEmail (previewRequestBody p) =
      renderEmail (sendRenderInput (sendRequestBody p subject)) :=
  ⟨rfl, rfl⟩

/-- Witness for C10 at a concrete result: total 3, sent 2. -/
theorem successRate_no_div_by_zero_witness :
    (BatchResult.mk 3 2 1).sent ≤ (BatchResult.mk 3 2 1).total ∧
    displayedSuccessRate (BatchResult.mk 3 2 1) = some 67 ∧
    1 ≤ (BatchResult.mk 3 2 1).total := by
  have hshown : displayedSuccessRate (BatchResult.mk 3 2 1) = some 67 := by
    unfold displayedSuccessRate
    norm_num
    rw [round_eq]
    norm_num
  refine ⟨by decide, hshown, ?_⟩
  exact (successRate_no_div_by_zero (BatchResult.mk 3 2 1) (by decide) 67 hshown).1

end ScholarDock
